import Mathlib

/-!
Verification of the flightradar backend core: circuit-breaker backoff,
the metadata crawler's multi-source query loop and dispositions, the
aircraft processing queue, the incomplete-aircraft classifier, flight
splitting by time gap, and the non-blocking update-cycle guard.

All definitions are shallow embeddings of the Python source.  Machine
time (`time.time()` / `datetime.now()`) is modelled as an integer number
of seconds passed explicitly.  The `Aircraft` metadata model is absent
from the backend sources (only its callers are present); its two methods
used by the crawler are modelled from the specification and marked as
such in their doc comments.
-/

namespace Flightradar

/-! ## Circuit breaker (`app/crawling/utils/source_backoff.py`) -/

/-- The `CircuitState` enum from `source_backoff.py`. -/
inductive CircuitState where
  | CLOSED
  | OPEN
  | HALF_OPEN
deriving DecidableEq, Repr

/-- The `CircuitBreaker` dataclass from `source_backoff.py`.  Times are
integers (seconds, as returned by `time.time()`). -/
structure CircuitBreaker where
  failure_threshold : Nat := 5
  base_reset_seconds : Nat := 60
  max_reset_seconds : Nat := 1800
  consecutive_failures : Nat := 0
  last_failure_time : ℤ := 0
  state : CircuitState := .CLOSED
  total_failures : Nat := 0
  total_successes : Nat := 0
  trip_count : Nat := 0
deriving DecidableEq, Repr

namespace CircuitBreaker

/-- Fresh breaker as constructed by the dataclass: all counters zero,
state `CLOSED`. -/
def mkBreaker (failure_threshold base_reset_seconds max_reset_seconds : Nat) :
    CircuitBreaker :=
  { failure_threshold := failure_threshold
    base_reset_seconds := base_reset_seconds
    max_reset_seconds := max_reset_seconds }

/-- Method `CircuitBreaker._get_current_reset_seconds`: exponential backoff
`base * 2^(trip_count-1)` capped at `max_reset_seconds`; trip count 0
gives the base value. -/
def _get_current_reset_seconds (b : CircuitBreaker) : Nat :=
  if b.trip_count = 0 then b.base_reset_seconds
  else min (b.base_reset_seconds * 2 ^ (b.trip_count - 1)) b.max_reset_seconds

/-- Method `CircuitBreaker.is_available` at time `now`.  Returns the boolean
result together with the (possibly mutated) breaker: an `OPEN` breaker
whose backoff has elapsed transitions to `HALF_OPEN`. -/
def is_available (b : CircuitBreaker) (now : ℤ) : Bool × CircuitBreaker :=
  match b.state with
  | .CLOSED => (true, b)
  | .OPEN =>
      if b.last_failure_time + (_get_current_reset_seconds b : ℤ) ≤ now then
        (true, { b with state := .HALF_OPEN })
      else
        (false, b)
  | .HALF_OPEN => (true, b)

/-- Method `CircuitBreaker.record_success`: resets the consecutive-failure
count, closes the circuit, and resets the trip count when recovering
from `HALF_OPEN`. -/
def record_success (b : CircuitBreaker) : CircuitBreaker :=
  let b := { b with total_successes := b.total_successes + 1 }
  let b :=
    if b.state = .HALF_OPEN then { b with trip_count := 0 } else b
  { b with state := .CLOSED, consecutive_failures := 0 }

/-- Method `CircuitBreaker.record_failure` at time `now`. -/
def record_failure (b : CircuitBreaker) (now : ℤ) : CircuitBreaker :=
  let b := { b with
    total_failures := b.total_failures + 1
    consecutive_failures := b.consecutive_failures + 1
    last_failure_time := now }
  if b.state = .HALF_OPEN then
    { b with trip_count := b.trip_count + 1, state := .OPEN }
  else if b.consecutive_failures ≥ b.failure_threshold then
    if b.state ≠ .OPEN then
      { b with trip_count := b.trip_count + 1, state := .OPEN }
    else
      { b with state := .OPEN }
  else
    b

/-- Record a sequence of failures at the given times, in order. -/
def recordFailures (b : CircuitBreaker) (ts : List ℤ) : CircuitBreaker :=
  ts.foldl record_failure b

/-- Run `is_available` at each time of the list in order, threading the
breaker state, and collect the boolean results. -/
def isAvailRun (b : CircuitBreaker) : List ℤ → List Bool
  | [] => []
  | t :: ts =>
      let r := is_available b t
      r.1 :: isAvailRun r.2 ts

/-- Breakers reachable from a freshly constructed one by any sequence of
`is_available`, `record_success` and `record_failure` calls. -/
inductive Reachable : CircuitBreaker → Prop where
  | fresh (ft base maxr : Nat) : Reachable (mkBreaker ft base maxr)
  | avail (b : CircuitBreaker) (now : ℤ) :
      Reachable b → Reachable (is_available b now).2
  | succ (b : CircuitBreaker) :
      Reachable b → Reachable (record_success b)
  | fail (b : CircuitBreaker) (now : ℤ) :
      Reachable b → Reachable (record_failure b now)

end CircuitBreaker

/-! ## Aircraft metadata model

`app/core/models/aircraft.py` is not part of the backend sources here;
only its callers are.  The two methods the crawler uses are therefore
modelled from the specification. -/

/-- Aircraft metadata record, keyed by mode-S hex address, with the
optional fields listed in the specification data model (registration,
ICAO type code, type description, operator, ICAO type designator,
source attribution). -/
structure Aircraft where
  mode_s : String
  reg : Option String := none
  icao_type_code : Option String := none
  aircraft_type_description : Option String := none
  operator : Option String := none
  icao_type_designator : Option String := none
  source : Option String := none
deriving DecidableEq, Repr

namespace Aircraft

/-- Fill a single optional field: keeps an already-populated value,
takes the other record's value when empty.  The boolean reports whether
the field changed. -/
def fillField (x y : Option String) : Option String × Bool :=
  match x with
  | some v => (some v, false)
  | none =>
      match y with
      | some w => (some w, true)
      | none => (none, false)

/-- Modelled from the spec: `Aircraft.merge` is missing from the backend
sources.  Per §4.3 it "fills only currently-empty fields from `other`"
and "returns whether anything changed"; the filled fields are the
metadata fields of the §3 data model. -/
def merge (a other : Aircraft) : Aircraft × Bool :=
  let r := fillField a.reg other.reg
  let tc := fillField a.icao_type_code other.icao_type_code
  let td := fillField a.aircraft_type_description other.aircraft_type_description
  let op := fillField a.operator other.operator
  let des := fillField a.icao_type_designator other.icao_type_designator
  (⟨a.mode_s, r.1, tc.1, td.1, op.1, des.1, a.source⟩,
    r.2 || tc.2 || td.2 || op.2 || des.2)

/-- Modelled from the spec: `Aircraft.is_complete_with_operator` is
missing from the backend sources.  It is the strict completeness bar,
requiring all four key fields (registration, ICAO type code, type
description, operator): the crawler's own comments call `_is_sufficient`
"3 of 4 key fields" and check it after this predicate, and the spec's
end-to-end scenario logs a merged registration+type-code+operator record
as "merged" rather than "success", so this predicate must require the
fourth field as its name says. -/
def is_complete_with_operator (a : Aircraft) : Bool :=
  a.reg.isSome && a.icao_type_code.isSome &&
    a.aircraft_type_description.isSome && a.operator.isSome

end Aircraft

/-- Function `_is_sufficient` from `app/crawling/crawler.py`: registration and
type code at minimum, plus at least one of type description or
operator. -/
def _is_sufficient (aircraft : Aircraft) : Bool :=
  let has_reg := aircraft.reg.isSome
  let has_type_code := aircraft.icao_type_code.isSome
  let has_type_desc := aircraft.aircraft_type_description.isSome
  let has_operator := aircraft.operator.isSome
  if !has_reg || !has_type_code then false
  else has_type_desc || has_operator

/-! ## Metadata source outcomes (`query_result.py` and the concrete
sources) -/

/-- Per-source outcome of `query_aircraft_with_status` as observed by
the crawler: a `QueryStatus` of `SERVICE_ERROR`, `NOT_FOUND`, `SUCCESS`
or `PARTIAL_DATA`, or an exception escaping the call.  The concrete
sources (`hexdb_io.py`, `openskynet.py`, `nighthawk_sources.py`) only
build `SUCCESS`/`PARTIAL_DATA` results around a non-null aircraft, so
those carry an `Aircraft`. -/
inductive Outcome where
  | service_error (msg : Option String)
  | not_found
  | success (a : Aircraft)
  | partial_data (a : Aircraft)
  | exception (msg : String)
deriving DecidableEq, Repr

/-- One configured source as seen by one pass of
`_query_aircraft_metadata`: its name, whether `accept` admits the
address, the volatile admin-enabled flag, the circuit-breaker
availability at the moment it is checked, and the query outcome. -/
structure SourceEntry where
  name : String
  accepts : Bool := true
  enabled : Bool := true
  available : Bool := true
  outcome : Outcome
deriving DecidableEq, Repr

/-- One `SourceQueryLog` entry (source name and status string; the
duration and raw payload carry no information in this model). -/
structure SourceQueryLog where
  source : String
  status : String
  error : Option String := none
deriving DecidableEq, Repr

/-- The `CrawlResult` dataclass from `crawler.py`. -/
structure CrawlResult where
  aircraft : Option Aircraft := none
  had_service_error : Bool := false
  all_not_found : Bool := true
  error_message : Option String := none
  query_logs : List SourceQueryLog := []
deriving DecidableEq, Repr

/-- A source is actually queried when it accepts the address, is
admin-enabled and its circuit breaker reports available. -/
def eligibleEntry (e : SourceEntry) : Bool :=
  e.accepts && e.enabled && e.available

/-- Outcome is a definitive `NOT_FOUND`. -/
def isNotFoundOutcome : Outcome → Bool
  | .not_found => true
  | _ => false

/-- Outcome counts as a service error for the crawl (a `SERVICE_ERROR`
status or an exception during the query). -/
def isServiceErrorOutcome : Outcome → Bool
  | .service_error _ => true
  | .exception _ => true
  | _ => false

/-- Outcome delivered aircraft data (`SUCCESS` or `PARTIAL_DATA`). -/
def isDataOutcome : Outcome → Bool
  | .success _ => true
  | .partial_data _ => true
  | _ => false

/-- Some configured source was actually queried and returned
`NOT_FOUND`. -/
def anyNF (ss : List SourceEntry) : Bool :=
  ss.any (fun e => eligibleEntry e && isNotFoundOutcome e.outcome)

/-- Some configured source was actually queried and produced a service
error (status or exception). -/
def anySvc (ss : List SourceEntry) : Bool :=
  ss.any (fun e => eligibleEntry e && isServiceErrorOutcome e.outcome)

/-- Some configured source was actually queried at all. -/
def anyElig (ss : List SourceEntry) : Bool :=
  ss.any eligibleEntry

/-- The merged accumulation of a new partial result `a` into the best
result so far, as `_query_aircraft_metadata` performs it. -/
def accumulate (best : Option Aircraft) (a : Aircraft) : Aircraft :=
  match best with
  | none => a
  | some b => (b.merge a).1

/-- The source-loop body of `_query_aircraft_metadata`
(`crawler.py`), with the loop state (best merged result, contributing
source names, `had_service_error`, `any_not_found`,
`any_source_queried`, query logs) passed explicitly.  The two identical
early returns of the Python (merged result complete / merged result
sufficient) are written as one `if` with a disjunction. -/
def query_loop : List SourceEntry → Option Aircraft → List String →
    Bool → Bool → Bool → List SourceQueryLog → CrawlResult
  | [], best, used, hse, anf, asq, logs =>
      let best' : Option Aircraft :=
        match best with
        | some b =>
            if used.length > 1 then
              some { b with source := some (String.intercalate "+" used) }
            else some b
        | none => none
      let is_not_found := anf && best'.isNone
      let is_service_error :=
        !is_not_found && (hse || !asq) && best'.isNone
      { aircraft := best'
        had_service_error := is_service_error
        all_not_found := is_not_found
        error_message := none
        query_logs := logs }
  | e :: rest, best, used, hse, anf, asq, logs =>
      if !e.accepts then query_loop rest best used hse anf asq logs
      else if !e.enabled then query_loop rest best used hse anf asq logs
      else if !e.available then
        query_loop rest best used hse anf asq
          (logs ++ [{ source := e.name, status := "skipped_circuit_breaker" }])
      else
        match e.outcome with
        | .service_error msg =>
            query_loop rest best used true anf true
              (logs ++ [⟨e.name, "service_error", msg⟩])
        | .exception msg =>
            query_loop rest best used true anf true
              (logs ++ [⟨e.name, "exception", some msg⟩])
        | .not_found =>
            query_loop rest best used hse true true
              (logs ++ [{ source := e.name, status := "not_found" }])
        | .success a =>
            let logs' := logs ++ [{ source := e.name, status := "success" }]
            if a.is_complete_with_operator then
              { aircraft := some a, had_service_error := hse
                all_not_found := false, error_message := none
                query_logs := logs' }
            else
              let m := accumulate best a
              let used' :=
                match best with
                | none => used ++ [e.name]
                | some b => if (b.merge a).2 then used ++ [e.name] else used
              if m.is_complete_with_operator || _is_sufficient m then
                { aircraft :=
                    some { m with source := some (String.intercalate "+" used') }
                  had_service_error := hse, all_not_found := false
                  error_message := none, query_logs := logs' }
              else query_loop rest (some m) used' hse anf true logs'
        | .partial_data a =>
            let logs' := logs ++ [{ source := e.name, status := "partial_data" }]
            if a.is_complete_with_operator then
              { aircraft := some a, had_service_error := hse
                all_not_found := false, error_message := none
                query_logs := logs' }
            else
              let m := accumulate best a
              let used' :=
                match best with
                | none => used ++ [e.name]
                | some b => if (b.merge a).2 then used ++ [e.name] else used
              if m.is_complete_with_operator || _is_sufficient m then
                { aircraft :=
                    some { m with source := some (String.intercalate "+" used') }
                  had_service_error := hse, all_not_found := false
                  error_message := none, query_logs := logs' }
              else query_loop rest (some m) used' hse anf true logs'

/-- Method `AirplaneCrawler._query_aircraft_metadata`: run the source loop
from the initial state. -/
def _query_aircraft_metadata (sources : List SourceEntry) : CrawlResult :=
  query_loop sources none [] false false false []

/-! ## Aircraft processing queue
(`app/data/repositories/aircraft_processing_repository.py`)

The `aircraft_to_process` MongoDB collection is modelled as a list of
documents in insertion order, with a unique index on `modeS`. -/

/-- Python `str.upper()`: upper-case every character.  (Defined
structurally over the character list so that concrete instances
evaluate; `String.toUpper` is the same map.) -/
def pyUpper (s : String) : String := ⟨s.data.map Char.toUpper⟩

/-- Python `c in s` for a single character, structurally over the
character list. -/
def containsChar (s : String) (c : Char) : Bool := s.data.contains c

/-- The `FailureType` enum. -/
inductive FailureType where
  | NONE
  | NOT_FOUND
  | SERVICE_ERROR
deriving DecidableEq, Repr

/-- The `CrawlReason` enum. -/
inductive CrawlReason where
  | NOT_IN_DB
  | NO_TIMESTAMP
  | INCOMPLETE_STALE
  | STALE
  | UNKNOWN
deriving DecidableEq, Repr

/-- One document of the `aircraft_to_process` collection. -/
structure QueueEntry where
  modeS : String
  query_attempts : Nat := 0
  last_attempt_time : Option ℤ := none
  failure_type : FailureType := .NONE
  crawl_reason : CrawlReason := .UNKNOWN
  last_error : Option String := none
deriving DecidableEq, Repr

/-- Update the first list element satisfying `p` (MongoDB
`update_one`). -/
def updateFirst (p : α → Bool) (f : α → α) : List α → List α
  | [] => []
  | x :: xs => if p x then f x :: xs else x :: updateFirst p f xs

/-- Remove the first list element satisfying `p` (MongoDB
`delete_one`). -/
def removeFirst (p : α → Bool) : List α → List α
  | [] => []
  | x :: xs => if p x then xs else x :: removeFirst p xs

namespace AircraftProcessingRepository

/-- Method `add_aircraft`: inserts a fresh document keyed by the upper-cased
address; a duplicate-key error (unique index on `modeS`) is swallowed
and also reported as success. -/
def add_aircraft (q : List QueueEntry) (icao24 : String)
    (crawl_reason : CrawlReason) : List QueueEntry × Bool :=
  if q.any (fun e => e.modeS = pyUpper icao24) then (q, true)
  else
    (q ++ [{ modeS := pyUpper icao24, query_attempts := 0
             last_attempt_time := none, failure_type := .NONE
             crawl_reason := crawl_reason }], true)

/-- Method `get_crawl_reason`: crawl reason of the first document matching the
upper-cased address, if any. -/
def get_crawl_reason (q : List QueueEntry) (icao24 : String) :
    Option CrawlReason :=
  (q.find? (fun e => e.modeS = pyUpper icao24)).map (fun e => e.crawl_reason)

/-- The per-document update applied by `record_not_found`: increments
`query_attempts`, sets `failure_type` to not-found and stamps the
attempt time. -/
def notFoundUpdate (now : ℤ) (e : QueueEntry) : QueueEntry :=
  { e with query_attempts := e.query_attempts + 1
           failure_type := .NOT_FOUND
           last_attempt_time := some now }

/-- Method `record_not_found` on the queue. -/
def record_not_found (q : List QueueEntry) (icao24 : String) (now : ℤ) :
    List QueueEntry :=
  updateFirst (fun e => e.modeS = pyUpper icao24) (notFoundUpdate now) q

/-- The per-document update applied by `record_service_error`: sets
`failure_type` to service-error and stamps the attempt time without
touching `query_attempts`; `last_error` is set only for a truthy
(non-empty) message. -/
def serviceErrorUpdate (now : ℤ) (error_message : Option String)
    (e : QueueEntry) : QueueEntry :=
  { e with failure_type := .SERVICE_ERROR
           last_attempt_time := some now
           last_error :=
             match error_message with
             | some m => if m = "" then e.last_error else some m
             | none => e.last_error }

/-- Method `record_service_error` on the queue. -/
def record_service_error (q : List QueueEntry) (icao24 : String) (now : ℤ)
    (error_message : Option String) : List QueueEntry :=
  updateFirst (fun e => e.modeS = pyUpper icao24)
    (serviceErrorUpdate now error_message) q

/-- The per-document update applied by `reset_service_error_attempts`
to documents matching its filter. -/
def resetUpdate (e : QueueEntry) : QueueEntry :=
  { e with query_attempts := 0, failure_type := .NONE }

/-- The `update_many` filter of `reset_service_error_attempts`:
service-error documents whose last attempt is strictly older than the
cooldown threshold `now - reset_hours` (in hours; a missing
`last_attempt_time` never matches a typed `$lt` comparison). -/
def resetFilter (reset_threshold : ℤ) (e : QueueEntry) : Bool :=
  e.failure_type = .SERVICE_ERROR &&
    (match e.last_attempt_time with
     | some t => t < reset_threshold
     | none => false)

/-- Method `reset_service_error_attempts`: `update_many` over the queue,
clearing the failure classification and the attempt counter of every
cooled-down service-error document. -/
def reset_service_error_attempts (q : List QueueEntry)
    (now : ℤ) (service_error_reset_hours : Nat) : List QueueEntry :=
  q.map (fun e =>
    if resetFilter (now - (service_error_reset_hours : ℤ) * 3600) e then
      resetUpdate e
    else e)

/-- Method `remove_aircraft` (`delete_one` by upper-cased address). -/
def remove_aircraft (q : List QueueEntry) (icao24 : String) :
    List QueueEntry :=
  removeFirst (fun e => e.modeS = pyUpper icao24) q

/-- Method `aircraft_exists` (`find_one` by upper-cased address). -/
def aircraft_exists (q : List QueueEntry) (icao24 : String) : Bool :=
  q.any (fun e => e.modeS = pyUpper icao24)

/-- The `$or` selection filter of `get_aircraft_for_processing`: new
documents, not-found failures under the attempt cap, service errors
past the cooldown, or documents with no failure classification under
the cap.  (The legacy missing-`failure_type` branch cannot occur in
this model, where every document carries the field.) -/
def eligibleForProcessing (max_attempts : Nat) (reset_threshold : ℤ)
    (e : QueueEntry) : Bool :=
  e.query_attempts = 0 ||
  (e.failure_type = .NOT_FOUND && e.query_attempts < max_attempts) ||
  (e.failure_type = .SERVICE_ERROR &&
    (match e.last_attempt_time with
     | some t => t < reset_threshold
     | none => false)) ||
  (e.failure_type = .NONE && e.query_attempts < max_attempts)

/-- Method `cleanup_failed_aircraft`: purge not-found documents at or above
the attempt cap. -/
def cleanup_failed_aircraft (q : List QueueEntry) (max_attempts : Nat) :
    List QueueEntry :=
  q.filter (fun e =>
    !(e.failure_type = .NOT_FOUND && e.query_attempts ≥ max_attempts))

end AircraftProcessingRepository

/-! ## Per-address disposition in `AirplaneCrawler.crawl_sources` -/

/-- The activity status recorded for a crawl that produced aircraft
data and inserted it successfully (`crawl_sources`): `success` for a
complete record, `merged` when the source attribution is a `+`-joined
list, `partial` otherwise. -/
def savedStatus (a : Aircraft) : String :=
  if a.is_complete_with_operator then "success"
  else if containsChar (a.source.getD "") '+' then "merged"
  else "partial"

/-- One iteration of the per-address loop of
`AirplaneCrawler.crawl_sources`: crawl the sources, then either persist
and dequeue, or record the not-found / service-error disposition.
Returns the updated processing queue and the recorded activity
status. `insert_ok` is the outcome of `aircraft_repo.insert_aircraft`.
-/
def process_one (q : List QueueEntry) (icao24 : String) (now : ℤ)
    (sources : List SourceEntry) (insert_ok : Bool) :
    List QueueEntry × String :=
  let r := _query_aircraft_metadata sources
  match r.aircraft with
  | some a =>
      if insert_ok then
        (AircraftProcessingRepository.remove_aircraft q icao24, savedStatus a)
      else
        (AircraftProcessingRepository.record_service_error q icao24 now
          (some "Database insert failed"), "service_error")
  | none =>
      if r.had_service_error then
        (AircraftProcessingRepository.record_service_error q icao24 now
          r.error_message, "service_error")
      else if r.all_not_found then
        (AircraftProcessingRepository.record_not_found q icao24 now,
          "not_found")
      else
        (AircraftProcessingRepository.record_service_error q icao24 now
          (some "Unknown crawl state"), "service_error")

/-! ## Flight splitting
(`MongoDBRepository.split_flights` in
`app/data/repositories/mongodb_repository.py`) -/

/-- The two fields of a position row read by `split_flights`. -/
structure PositionDoc where
  flight_id : String
  timestmp : ℤ
deriving DecidableEq, Repr

/-- The time-gap condition of `split_flights`:
`abs(tdiff) > fifteen_min` between consecutive rows (15 minutes = 900
seconds). -/
def gapExceeded (prev cur : PositionDoc) : Bool :=
  |cur.timestmp - prev.timestmp| > 900

/-- The index loop of `split_flights`, with the group-start flight id,
the previous row and the current group (reversed) carried explicitly:
a new group starts when the gap to the previous row exceeds 15 minutes
or the row's flight id differs from the current group's. -/
def splitGo (current_flight_id : String) (prev : PositionDoc)
    (group : List PositionDoc) : List PositionDoc → List (List PositionDoc)
  | [] => [group.reverse]
  | p :: rest =>
      if gapExceeded prev p ∨ p.flight_id ≠ current_flight_id then
        group.reverse :: splitGo p.flight_id p [p] rest
      else
        splitGo current_flight_id p (p :: group) rest

/-- Method `MongoDBRepository.split_flights`: splits position rows into
flights; the empty input yields no groups. -/
def split_flights (positions : List PositionDoc) : List (List PositionDoc) :=
  match positions with
  | [] => []
  | p :: rest => splitGo p.flight_id p [p] rest

/-- Every consecutive gap along `prev :: rest` is within the 15-minute
bound. -/
def chainSmall : PositionDoc → List PositionDoc → Bool
  | _, [] => true
  | prev, p :: rest => !gapExceeded prev p && chainSmall p rest

/-- All rows of the list carry the given flight id. -/
def allFid (fid : String) (l : List PositionDoc) : Prop :=
  ∀ p ∈ l, p.flight_id = fid

instance (fid : String) (l : List PositionDoc) : Decidable (allFid fid l) := by
  unfold allFid
  exact List.decidableBAll (fun p : PositionDoc => p.flight_id = fid) l

/-- Last row of `prev :: rest`. -/
def lastPos (prev : PositionDoc) : List PositionDoc → PositionDoc
  | [] => prev
  | p :: rest => lastPos p rest

/-! ## Incomplete-aircraft classifier
(`app/core/services/incomplete_aircraft_manager.py`) -/

/-- The fields of an `aircraft` collection document read by the
classifier.  The metadata lookup itself
(`AircraftRepository.query_aircraft`, not part of these sources) is
abstracted as the optional document handed to the classifier. -/
structure AircraftDoc where
  registeredOwners : Option String := none
  type : Option String := none
  icaoTypeCode : Option String := none
  registration : Option String := none
  lastModified : Option ℤ := none
deriving DecidableEq, Repr

/-- A critical field is missing when absent or a blank string
(`value is None or value.strip() == ""`); a stripped string is empty
exactly when every character is whitespace. -/
def missingField : Option String → Bool
  | none => true
  | some s => s.data.all Char.isWhitespace

/-- Method `IncompleteAircraftManager._has_missing_critical_fields` over the
critical fields `registeredOwners`, `type`, `icaoTypeCode`,
`registration`. -/
def _has_missing_critical_fields (doc : AircraftDoc) : Bool :=
  missingField doc.registeredOwners || missingField doc.type ||
    missingField doc.icaoTypeCode || missingField doc.registration

/-- The per-address body of
`IncompleteAircraftManager._classify_unknown_aircraft`: `none` means
the address is not queued, otherwise the crawl reason it is queued
with.  `in_queue` is `processing_aircraft_repo.aircraft_exists`;
`record` is the stored metadata document (or `none` when the aircraft
is not in the collection); thresholds are `now` minus the configured
staleness windows in days. -/
def _classify_unknown_aircraft (in_queue : Bool) (record : Option AircraftDoc)
    (now : ℤ) (staleness_days incomplete_staleness_days : Nat) :
    Option CrawlReason :=
  if in_queue then none
  else
    match record with
    | none => some .NOT_IN_DB
    | some doc =>
        match doc.lastModified with
        | none => some .NO_TIMESTAMP
        | some last_modified =>
            if _has_missing_critical_fields doc ∧
                last_modified < now - (incomplete_staleness_days : ℤ) * 86400 then
              some .INCOMPLETE_STALE
            else if last_modified < now - (staleness_days : ℤ) * 86400 then
              some .STALE
            else
              none

/-! ## Update-cycle guard
(`FlightUpdaterCoordinator.update` in
`app/core/services/flight_updater_coordinator.py`) -/

/-- Log levels used by the coordinator. -/
inductive LogLevel where
  | debug
  | info
  | warning
deriving DecidableEq, Repr

/-- Method `FlightUpdaterCoordinator.update`: the whole cycle body (fetch
positions, update flight/position state, classification, broadcasting)
is the state transformer `cycle`; the non-blocking
`_update_lock.acquire(blocking=False)` result is `lock_acquired`.  When
the lock is already held by a running cycle the call returns at once:
the state is untouched and only the debug-level skip message is
logged. -/
def FlightUpdaterCoordinator.update {α : Type}
    (cycle : α → α × List (LogLevel × String)) (lock_acquired : Bool)
    (s : α) : α × List (LogLevel × String) :=
  if lock_acquired then cycle s
  else (s, [(.debug, "Update already in progress, skipping this cycle")])

end Flightradar

namespace Flightradar
namespace CircuitBreaker

theorem isAvailRun_half_open (b : CircuitBreaker) (hb : b.state = .HALF_OPEN)
    (qs : List ℤ) : isAvailRun b qs = qs.map (fun _ => true) := by
  induction qs with
  | nil => rfl
  | cons t ts ih =>
      simp only [isAvailRun, is_available, hb, List.map]
      rw [ih]

theorem isAvailRun_open (b : CircuitBreaker) (hb : b.state = .OPEN)
    (qs : List ℤ) (hqs : qs.Pairwise (· ≤ ·)) :
    isAvailRun b qs =
      qs.map (fun t =>
        decide (b.last_failure_time + (_get_current_reset_seconds b : ℤ) ≤ t)) := by
  induction qs with
  | nil => rfl
  | cons t ts ih =>
      rw [List.pairwise_cons] at hqs
      obtain ⟨hle, hts⟩ := hqs
      simp only [isAvailRun, is_available, hb, List.map]
      by_cases hc : b.last_failure_time + (_get_current_reset_seconds b : ℤ) ≤ t
      · rw [if_pos hc]
        rw [isAvailRun_half_open { b with state := .HALF_OPEN } rfl ts]
        rw [decide_eq_true hc]
        refine congrArg (List.cons true) ?_
        refine List.map_congr_left (fun t' ht' => ?_)
        exact (decide_eq_true (le_trans hc (hle t' ht'))).symm
      · rw [if_neg hc]
        rw [ih hts]
        rw [decide_eq_false hc]

theorem record_failure_preserves_config (b : CircuitBreaker) (now : ℤ) :
    (record_failure b now).failure_threshold = b.failure_threshold ∧
    (record_failure b now).base_reset_seconds = b.base_reset_seconds ∧
    (record_failure b now).max_reset_seconds = b.max_reset_seconds := by
  unfold record_failure
  dsimp only
  split
  · exact ⟨rfl, rfl, rfl⟩
  · split
    · split
      · exact ⟨rfl, rfl, rfl⟩
      · exact ⟨rfl, rfl, rfl⟩
    · exact ⟨rfl, rfl, rfl⟩

theorem recordFailures_closed (ts : List ℤ) : ∀ b : CircuitBreaker,
    b.state = .CLOSED →
    b.consecutive_failures + ts.length < b.failure_threshold →
    (recordFailures b ts).state = .CLOSED ∧
    (recordFailures b ts).trip_count = b.trip_count ∧
    (recordFailures b ts).consecutive_failures =
      b.consecutive_failures + ts.length ∧
    (recordFailures b ts).failure_threshold = b.failure_threshold ∧
    (recordFailures b ts).base_reset_seconds = b.base_reset_seconds ∧
    (recordFailures b ts).max_reset_seconds = b.max_reset_seconds := by
  induction ts with
  | nil =>
      intro b hstate _
      exact ⟨hstate, rfl, rfl, rfl, rfl, rfl⟩
  | cons t ts ih =>
      intro b hstate hlt
      have hstep : record_failure b t =
          { b with
            total_failures := b.total_failures + 1
            consecutive_failures := b.consecutive_failures + 1
            last_failure_time := t } := by
        unfold record_failure
        dsimp only
        rw [if_neg (by rw [hstate]; intro h; exact CircuitState.noConfusion h)]
        rw [if_neg (by
          simp only [List.length_cons] at hlt
          omega)]
      have hrec : recordFailures b (t :: ts) =
          recordFailures (record_failure b t) ts := rfl
      have hcs : (record_failure b t).consecutive_failures =
          b.consecutive_failures + 1 := by rw [hstep]
      have hstate' : (record_failure b t).state = .CLOSED := by
        rw [hstep]; exact hstate
      have htc : (record_failure b t).trip_count = b.trip_count := by rw [hstep]
      have hft : (record_failure b t).failure_threshold = b.failure_threshold := by
        rw [hstep]
      have hbase : (record_failure b t).base_reset_seconds =
          b.base_reset_seconds := by rw [hstep]
      have hmax : (record_failure b t).max_reset_seconds =
          b.max_reset_seconds := by rw [hstep]
      obtain ⟨h1, h2, h3, h4, h5, h6⟩ := ih (record_failure b t) hstate'
        (by
          rw [hcs, hft]
          simp only [List.length_cons] at hlt
          omega)
      rw [hrec]
      refine ⟨h1, ?_, ?_, ?_, ?_, ?_⟩
      · rw [h2, htc]
      · rw [h3, hcs]
        simp only [List.length_cons]
        omega
      · rw [h4, hft]
      · rw [h5, hbase]
      · rw [h6, hmax]

theorem reachable_tripped (b : CircuitBreaker) (h : Reachable b) :
    b.state ≠ .CLOSED → 1 ≤ b.trip_count := by
  induction h with
  | fresh ft base maxr => intro hc; exact absurd rfl hc
  | avail b now hr ih =>
      rcases hstate : b.state with h1 | h1 | h1
      · simp only [is_available, hstate]
        intro hc
        exact absurd rfl hc
      · simp only [is_available, hstate]
        by_cases hcond :
            b.last_failure_time + (_get_current_reset_seconds b : ℤ) ≤ now
        · rw [if_pos hcond]
          intro _
          exact ih (by rw [hstate]; intro hcc; exact CircuitState.noConfusion hcc)
        · rw [if_neg hcond]
          intro _
          exact ih (by rw [hstate]; intro hcc; exact CircuitState.noConfusion hcc)
      · simp only [is_available, hstate]
        intro _
        exact ih (by rw [hstate]; intro hcc; exact CircuitState.noConfusion hcc)
  | succ b hr ih =>
      intro hc
      exact absurd rfl hc
  | fail b now hr ih =>
      unfold record_failure
      dsimp only
      split
      · intro _
        show 1 ≤ b.trip_count + 1
        omega
      · split
        · split
          · intro _
            show 1 ≤ b.trip_count + 1
            omega
          · next hopen =>
              intro _
              rw [not_not] at hopen
              exact ih (by rw [hopen]; intro hcc; exact CircuitState.noConfusion hcc)
        · intro hc
          exact ih hc

end CircuitBreaker
end Flightradar

namespace Flightradar
namespace CircuitBreaker

/-- C2: a circuit breaker that starts CLOSED and records
`failure_threshold` consecutive failures (the last at time `tf`) ends up
OPEN with trip count 1; from then on, for any monotone sequence of
`is_available` queries, the result is true exactly when at least
`backoff(trip_count) = min (base * 2^(trip_count - 1)) max` seconds have
elapsed since the last failure, and it is false before that. -/
theorem C2_open_breaker_backoff_gate
    (ft base maxr : Nat) (ts : List ℤ) (tf : ℤ)
    (hlen : ts.length + 1 = ft)
    (b : CircuitBreaker)
    (hb : b = recordFailures (mkBreaker ft base maxr) (ts ++ [tf]))
    (qs : List ℤ) (hqs : qs.Pairwise (· ≤ ·)) :
    b.state = .OPEN ∧ b.trip_count = 1 ∧ b.last_failure_time = tf ∧
    _get_current_reset_seconds b = min (base * 2 ^ (b.trip_count - 1)) maxr ∧
    (∀ t : ℤ, t < tf + (_get_current_reset_seconds b : ℤ) →
      (is_available b t).1 = false) ∧
    isAvailRun b qs =
      qs.map (fun t => decide (tf + (_get_current_reset_seconds b : ℤ) ≤ t)) := by
  have hfresh : (mkBreaker ft base maxr).state = .CLOSED := rfl
  have hlt : (mkBreaker ft base maxr).consecutive_failures + ts.length <
      (mkBreaker ft base maxr).failure_threshold := by
    show 0 + ts.length < ft
    omega
  obtain ⟨hs, htr, hcf, hftp, hbp, hmp⟩ :=
    recordFailures_closed ts (mkBreaker ft base maxr) hfresh hlt
  set b1 := recordFailures (mkBreaker ft base maxr) ts with hb1
  have hsplit : recordFailures (mkBreaker ft base maxr) (ts ++ [tf]) =
      record_failure b1 tf := by
    unfold recordFailures
    rw [List.foldl_append]
    rfl
  have hcs0 : b1.consecutive_failures = ts.length := by
    rw [hcf]
    show 0 + ts.length = ts.length
    omega
  have hft1 : b1.failure_threshold = ft := hftp
  have htr0 : b1.trip_count = 0 := htr
  have hstep : record_failure b1 tf =
      { b1 with
        total_failures := b1.total_failures + 1
        consecutive_failures := b1.consecutive_failures + 1
        last_failure_time := tf
        trip_count := b1.trip_count + 1
        state := .OPEN } := by
    unfold record_failure
    dsimp only
    rw [if_neg (by
      show ¬b1.state = .HALF_OPEN
      rw [hs]; intro h; exact CircuitState.noConfusion h)]
    rw [if_pos (by
      show b1.consecutive_failures + 1 ≥ b1.failure_threshold
      rw [hcs0, hft1]; omega)]
    rw [if_pos (by
      show ¬b1.state = .OPEN
      rw [hs]; intro h; exact CircuitState.noConfusion h)]
  have hbeq : b = record_failure b1 tf := by rw [hb, hsplit]
  have hbs : b.state = .OPEN := by rw [hbeq, hstep]
  have hbt : b.trip_count = 1 := by
    rw [hbeq, hstep]
    show b1.trip_count + 1 = 1
    rw [htr0]
  have hbl : b.last_failure_time = tf := by rw [hbeq, hstep]
  have hbb : b.base_reset_seconds = base := by
    rw [hbeq, hstep]
    show b1.base_reset_seconds = base
    exact hbp
  have hbm : b.max_reset_seconds = maxr := by
    rw [hbeq, hstep]
    show b1.max_reset_seconds = maxr
    exact hmp
  have hrs : _get_current_reset_seconds b =
      min (base * 2 ^ (b.trip_count - 1)) maxr := by
    unfold _get_current_reset_seconds
    rw [if_neg (by rw [hbt]; omega)]
    rw [hbb, hbm]
  refine ⟨hbs, hbt, hbl, hrs, ?_, ?_⟩
  · intro t ht
    simp only [is_available, hbs]
    rw [if_neg (by rw [hbl]; exact not_le.mpr ht)]
  · rw [isAvailRun_open b hbs qs hqs]
    simp only [hbl]

/-- Closed instance of `C2_open_breaker_backoff_gate`: threshold 2,
base 60s, max 1800s, failures at times 0 and 5, queries at 10, 64, 65
and 70 seconds (backoff boundary at 5 + 60 = 65). -/
theorem C2_open_breaker_backoff_gate_witness :
    ([ (0 : ℤ) ].length + 1 = 2 ∧
      ([(10 : ℤ), 64, 65, 70]).Pairwise (· ≤ ·)) ∧
    ((recordFailures (mkBreaker 2 60 1800) ([0] ++ [5])).state = .OPEN ∧
     (recordFailures (mkBreaker 2 60 1800) ([0] ++ [5])).trip_count = 1 ∧
     (recordFailures (mkBreaker 2 60 1800) ([0] ++ [5])).last_failure_time = 5 ∧
     _get_current_reset_seconds (recordFailures (mkBreaker 2 60 1800) ([0] ++ [5])) =
       min (60 * 2 ^ ((recordFailures (mkBreaker 2 60 1800) ([0] ++ [5])).trip_count - 1)) 1800 ∧
     (∀ t : ℤ, t < 5 + (_get_current_reset_seconds
          (recordFailures (mkBreaker 2 60 1800) ([0] ++ [5])) : ℤ) →
       (is_available (recordFailures (mkBreaker 2 60 1800) ([0] ++ [5])) t).1 = false) ∧
     isAvailRun (recordFailures (mkBreaker 2 60 1800) ([0] ++ [5])) [10, 64, 65, 70] =
       ([(10 : ℤ), 64, 65, 70]).map (fun t => decide (5 + (_get_current_reset_seconds
          (recordFailures (mkBreaker 2 60 1800) ([0] ++ [5])) : ℤ) ≤ t))) :=
  ⟨⟨by decide, by decide⟩,
    C2_open_breaker_backoff_gate 2 60 1800 [0] 5 (by decide) _ rfl
      [10, 64, 65, 70] (by decide)⟩

end CircuitBreaker
end Flightradar

namespace Flightradar
namespace CircuitBreaker

/-- C3: for a reachable breaker in the HALF_OPEN state, recording a
failure returns it to OPEN with trip count incremented, doubling the
current backoff interval up to the cap; recording a success closes the
circuit, resets trip count and consecutive failures, and the backoff
interval returns to the base value. -/
theorem C3_half_open_failure_reopens_success_resets
    (b : CircuitBreaker) (hr : Reachable b) (hb : b.state = .HALF_OPEN)
    (now : ℤ) :
    ((record_failure b now).state = .OPEN ∧
     (record_failure b now).trip_count = b.trip_count + 1 ∧
     _get_current_reset_seconds (record_failure b now) =
       min (2 * _get_current_reset_seconds b) b.max_reset_seconds) ∧
    ((record_success b).state = .CLOSED ∧
     (record_success b).trip_count = 0 ∧
     (record_success b).consecutive_failures = 0 ∧
     _get_current_reset_seconds (record_success b) = b.base_reset_seconds) := by
  have htrip : 1 ≤ b.trip_count :=
    reachable_tripped b hr
      (by rw [hb]; intro h; exact CircuitState.noConfusion h)
  have hstep : record_failure b now =
      { b with
        total_failures := b.total_failures + 1
        consecutive_failures := b.consecutive_failures + 1
        last_failure_time := now
        trip_count := b.trip_count + 1
        state := .OPEN } := by
    unfold record_failure
    dsimp only
    rw [if_pos (by show b.state = .HALF_OPEN; exact hb)]
  have hsucc : record_success b =
      { b with
        total_successes := b.total_successes + 1
        trip_count := 0
        state := .CLOSED
        consecutive_failures := 0 } := by
    unfold record_success
    dsimp only
    rw [if_pos (by show b.state = .HALF_OPEN; exact hb)]
  obtain ⟨t, ht⟩ : ∃ t, b.trip_count = t + 1 :=
    ⟨b.trip_count - 1, by omega⟩
  refine ⟨⟨by rw [hstep], by rw [hstep], ?_⟩,
          ⟨by rw [hsucc], by rw [hsucc], by rw [hsucc], ?_⟩⟩
  · unfold _get_current_reset_seconds
    rw [hstep]
    show (if b.trip_count + 1 = 0 then b.base_reset_seconds
      else min (b.base_reset_seconds * 2 ^ (b.trip_count + 1 - 1))
        b.max_reset_seconds) =
      min (2 * if b.trip_count = 0 then b.base_reset_seconds
        else min (b.base_reset_seconds * 2 ^ (b.trip_count - 1))
          b.max_reset_seconds) b.max_reset_seconds
    rw [if_neg (by omega), if_neg (by omega), ht]
    simp only [Nat.add_sub_cancel]
    have hp : b.base_reset_seconds * 2 ^ (t + 1) =
        2 * (b.base_reset_seconds * 2 ^ t) := by ring
    rw [hp]
    generalize b.base_reset_seconds * 2 ^ t = X
    omega
  · unfold _get_current_reset_seconds
    rw [hsucc]
    show (if (0 : Nat) = 0 then b.base_reset_seconds
      else min (b.base_reset_seconds * 2 ^ (0 - 1)) b.max_reset_seconds) =
      b.base_reset_seconds
    rw [if_pos rfl]

/-- Closed instance of `C3_half_open_failure_reopens_success_resets`:
the breaker with threshold 1, base 1s, max 4s, after a failure at time 0
and an `is_available` probe at time 1 (which moves it to HALF_OPEN). -/
theorem C3_half_open_failure_reopens_success_resets_witness :
    ((is_available (record_failure (mkBreaker 1 1 4) 0) 1).2.state =
        .HALF_OPEN) ∧
    (((record_failure (is_available (record_failure (mkBreaker 1 1 4) 0) 1).2 7).state = .OPEN ∧
      (record_failure (is_available (record_failure (mkBreaker 1 1 4) 0) 1).2 7).trip_count =
        (is_available (record_failure (mkBreaker 1 1 4) 0) 1).2.trip_count + 1 ∧
      _get_current_reset_seconds
          (record_failure (is_available (record_failure (mkBreaker 1 1 4) 0) 1).2 7) =
        min (2 * _get_current_reset_seconds
          (is_available (record_failure (mkBreaker 1 1 4) 0) 1).2)
          (is_available (record_failure (mkBreaker 1 1 4) 0) 1).2.max_reset_seconds) ∧
     ((record_success (is_available (record_failure (mkBreaker 1 1 4) 0) 1).2).state = .CLOSED ∧
      (record_success (is_available (record_failure (mkBreaker 1 1 4) 0) 1).2).trip_count = 0 ∧
      (record_success (is_available (record_failure (mkBreaker 1 1 4) 0) 1).2).consecutive_failures = 0 ∧
      _get_current_reset_seconds
          (record_success (is_available (record_failure (mkBreaker 1 1 4) 0) 1).2) =
        (is_available (record_failure (mkBreaker 1 1 4) 0) 1).2.base_reset_seconds)) :=
  ⟨by decide,
    C3_half_open_failure_reopens_success_resets _
      (Reachable.avail _ 1 (Reachable.fail _ 0 (Reachable.fresh 1 1 4)))
      (by decide) 7⟩

end CircuitBreaker
end Flightradar

namespace Flightradar

/-- C8: a call of the flight-update coordinator's `update` while the
cycle lock is already held returns immediately with the state (flights,
positions, change sets, queues) untouched — whatever the cycle body
would do — and logs only the debug-level skip message. -/
theorem C8_contended_update_tick_dropped {α : Type}
    (cycle : α → α × List (LogLevel × String)) (s : α) :
    FlightUpdaterCoordinator.update cycle false s =
      (s, [(.debug, "Update already in progress, skipping this cycle")]) :=
  rfl

/-- C7: the classifier always queues an address with no stored record
with reason `NOT_IN_DB` (regardless of the staleness settings), and
never queues an address whose stored record has all critical fields
present and non-blank and a last-modified timestamp newer than both
staleness thresholds. -/
theorem C7_classifier_not_in_db_and_fresh_complete :
    (∀ (now : ℤ) (staleness_days incomplete_staleness_days : Nat),
      _classify_unknown_aircraft false none now staleness_days
        incomplete_staleness_days = some .NOT_IN_DB) ∧
    (∀ (doc : AircraftDoc) (last_modified now : ℤ)
        (staleness_days incomplete_staleness_days : Nat),
      _has_missing_critical_fields doc = false →
      doc.lastModified = some last_modified →
      now - (incomplete_staleness_days : ℤ) * 86400 < last_modified →
      now - (staleness_days : ℤ) * 86400 < last_modified →
      _classify_unknown_aircraft false (some doc) now staleness_days
        incomplete_staleness_days = none) := by
  refine ⟨fun now sd ind => rfl,
    fun doc lm now sd ind hmiss hlm h1 h2 => ?_⟩
  simp only [_classify_unknown_aircraft, hlm]
  rw [if_neg (fun h => Bool.false_ne_true h)]
  rw [if_neg (by intro h; omega)]
  rw [if_neg (by intro h; omega)]

/-- Closed instance of `C7_classifier_not_in_db_and_fresh_complete`:
a fully-populated record last modified one day before `now`, with the
default 7-day incomplete and 120-day general staleness windows, is not
queued. -/
theorem C7_classifier_not_in_db_and_fresh_complete_witness :
    (_has_missing_critical_fields
        { registeredOwners := some "Acme Air", type := some "Boeing 737"
          icaoTypeCode := some "B738", registration := some "N123"
          lastModified := some 999913600 } = false ∧
      (1000000000 : ℤ) - (7 : ℤ) * 86400 < 999913600 ∧
      (1000000000 : ℤ) - (120 : ℤ) * 86400 < 999913600) ∧
    _classify_unknown_aircraft false
      (some { registeredOwners := some "Acme Air", type := some "Boeing 737"
              icaoTypeCode := some "B738", registration := some "N123"
              lastModified := some 999913600 }) 1000000000 120 7 = none :=
  ⟨⟨by decide, by decide, by decide⟩,
    C7_classifier_not_in_db_and_fresh_complete.2
      { registeredOwners := some "Acme Air", type := some "Boeing 737"
        icaoTypeCode := some "B738", registration := some "N123"
        lastModified := some 999913600 }
      999913600 1000000000 120 7 (by decide) rfl (by decide) (by decide)⟩

end Flightradar

namespace Flightradar
namespace AircraftProcessingRepository

/-- C9: for a queue entry classified as a service error whose last
attempt is older than the cooldown, `reset_service_error_attempts` both
clears the failure classification to none and resets `query_attempts`
to zero, and the resulting entry passes the
`get_aircraft_for_processing` selection filter like a fresh one. -/
theorem C9_reset_service_error_clears_attempts
    (q : List QueueEntry) (e : QueueEntry) (now : ℤ)
    (service_error_reset_hours max_attempts : Nat) (reset_threshold t : ℤ)
    (he : e ∈ q)
    (hfail : e.failure_type = .SERVICE_ERROR)
    (hlast : e.last_attempt_time = some t)
    (hcool : t < now - (service_error_reset_hours : ℤ) * 3600) :
    resetUpdate e ∈
      reset_service_error_attempts q now service_error_reset_hours ∧
    (resetUpdate e).query_attempts = 0 ∧
    (resetUpdate e).failure_type = .NONE ∧
    eligibleForProcessing max_attempts reset_threshold (resetUpdate e) =
      true := by
  have hfilter :
      resetFilter (now - (service_error_reset_hours : ℤ) * 3600) e = true := by
    simp only [resetFilter, hfail, hlast]
    simpa using hcool
  refine ⟨?_, rfl, rfl, ?_⟩
  · have hmem :
        (if resetFilter (now - (service_error_reset_hours : ℤ) * 3600) e then
          resetUpdate e else e) ∈
          reset_service_error_attempts q now service_error_reset_hours :=
      List.mem_map_of_mem _ he
    rw [if_pos hfilter] at hmem
    exact hmem
  · simp [eligibleForProcessing, resetUpdate]

/-- Closed instance of `C9_reset_service_error_clears_attempts`:
an entry with three not-found attempts that later hit a service error
(last attempt at time 0) is reset to a fresh entry once the 6-hour
cooldown has passed. -/
theorem C9_reset_service_error_clears_attempts_witness :
    (({ modeS := "ABC123", query_attempts := 3, last_attempt_time := some 0
        failure_type := .SERVICE_ERROR, crawl_reason := .STALE } :
        QueueEntry) ∈
      [({ modeS := "ABC123", query_attempts := 3, last_attempt_time := some 0
          failure_type := .SERVICE_ERROR, crawl_reason := .STALE } :
          QueueEntry)] ∧
      (0 : ℤ) < 100000 - (6 : ℤ) * 3600) ∧
    (resetUpdate
        { modeS := "ABC123", query_attempts := 3, last_attempt_time := some 0
          failure_type := .SERVICE_ERROR, crawl_reason := .STALE } ∈
      reset_service_error_attempts
        [{ modeS := "ABC123", query_attempts := 3, last_attempt_time := some 0
           failure_type := .SERVICE_ERROR, crawl_reason := .STALE }] 100000 6 ∧
     (resetUpdate
        { modeS := "ABC123", query_attempts := 3, last_attempt_time := some 0
          failure_type := .SERVICE_ERROR, crawl_reason := .STALE
          }).query_attempts = 0 ∧
     (resetUpdate
        { modeS := "ABC123", query_attempts := 3, last_attempt_time := some 0
          failure_type := .SERVICE_ERROR, crawl_reason := .STALE
          }).failure_type = .NONE ∧
     eligibleForProcessing 5 0
        (resetUpdate
          { modeS := "ABC123", query_attempts := 3, last_attempt_time := some 0
            failure_type := .SERVICE_ERROR, crawl_reason := .STALE }) = true) :=
  ⟨⟨by decide, by decide⟩,
    C9_reset_service_error_clears_attempts _ _ 100000 6 5 0 0
      (by decide) rfl rfl (by decide)⟩

/-- C10: every processing-queue operation keyed by a mode-S address
(add, exists, get crawl reason, record not-found, record service-error,
remove) upper-cases the address before using it, so two addresses that
agree up to letter case act on the same entry, and any entry `add`
stores carries the upper-cased address as its key. -/
theorem C10_queue_ops_uppercase_address :
    (∀ a b : String, pyUpper a = pyUpper b →
      ∀ (q : List QueueEntry) (r : CrawlReason) (now : ℤ)
        (msg : Option String),
      add_aircraft q a r = add_aircraft q b r ∧
      aircraft_exists q a = aircraft_exists q b ∧
      get_crawl_reason q a = get_crawl_reason q b ∧
      record_not_found q a now = record_not_found q b now ∧
      record_service_error q a now msg = record_service_error q b now msg ∧
      remove_aircraft q a = remove_aircraft q b) ∧
    (∀ (q : List QueueEntry) (a : String) (r : CrawlReason)
        (e : QueueEntry),
      e ∈ (add_aircraft q a r).1 → e ∈ q ∨ e.modeS = pyUpper a) := by
  constructor
  · intro a b h q r now msg
    refine ⟨?_, ?_, ?_, ?_, ?_, ?_⟩
    · simp only [add_aircraft, h]
    · simp only [aircraft_exists, h]
    · simp only [get_crawl_reason, h]
    · simp only [record_not_found, h]
    · simp only [record_service_error, h]
    · simp only [remove_aircraft, h]
  · intro q a r e he
    unfold add_aircraft at he
    by_cases hq : q.any (fun e => e.modeS = pyUpper a)
    · rw [if_pos hq] at he
      exact Or.inl he
    · rw [if_neg hq] at he
      rcases List.mem_append.mp he with hin | hnew
      · exact Or.inl hin
      · rcases List.mem_singleton.mp hnew with rfl
        exact Or.inr rfl

/-- Closed instance of `C10_queue_ops_uppercase_address`: the mixed-case
address "aB12cD" and its upper-case form act identically on a one-entry
queue, and the entry added for "aB12cD" is stored under "AB12CD". -/
theorem C10_queue_ops_uppercase_address_witness :
    (pyUpper "aB12cD" = pyUpper "AB12CD" ∧
      ({ modeS := "AB12CD", crawl_reason := .NOT_IN_DB } : QueueEntry) ∈
        (add_aircraft [] "aB12cD" CrawlReason.NOT_IN_DB).1) ∧
    (add_aircraft [{ modeS := "XY99ZZ" }] "aB12cD" CrawlReason.NOT_IN_DB =
        add_aircraft [{ modeS := "XY99ZZ" }] "AB12CD" CrawlReason.NOT_IN_DB ∧
      aircraft_exists [{ modeS := "XY99ZZ" }] "aB12cD" =
        aircraft_exists [{ modeS := "XY99ZZ" }] "AB12CD" ∧
      get_crawl_reason [{ modeS := "XY99ZZ" }] "aB12cD" =
        get_crawl_reason [{ modeS := "XY99ZZ" }] "AB12CD" ∧
      record_not_found [{ modeS := "XY99ZZ" }] "aB12cD" 5 =
        record_not_found [{ modeS := "XY99ZZ" }] "AB12CD" 5 ∧
      record_service_error [{ modeS := "XY99ZZ" }] "aB12cD" 5 (some "boom") =
        record_service_error [{ modeS := "XY99ZZ" }] "AB12CD" 5 (some "boom") ∧
      remove_aircraft [{ modeS := "XY99ZZ" }] "aB12cD" =
        remove_aircraft [{ modeS := "XY99ZZ" }] "AB12CD") ∧
    (({ modeS := "AB12CD", crawl_reason := .NOT_IN_DB } : QueueEntry) ∈ [] ∨
      ({ modeS := "AB12CD", crawl_reason := .NOT_IN_DB } :
        QueueEntry).modeS = pyUpper "aB12cD") :=
  ⟨⟨by decide, by decide⟩,
    C10_queue_ops_uppercase_address.1 "aB12cD" "AB12CD" (by decide)
      [{ modeS := "XY99ZZ" }] CrawlReason.NOT_IN_DB 5 (some "boom"),
    C10_queue_ops_uppercase_address.2 [] "aB12cD" CrawlReason.NOT_IN_DB
      { modeS := "AB12CD", crawl_reason := .NOT_IN_DB } (by decide)⟩

end AircraftProcessingRepository
end Flightradar

namespace Flightradar

theorem splitGo_small (rest : List PositionDoc) :
    ∀ (fid : String) (prev : PositionDoc) (group : List PositionDoc),
    chainSmall prev rest = true → allFid fid rest →
    splitGo fid prev group rest = [group.reverse ++ rest] := by
  induction rest with
  | nil =>
      intro fid prev group _ _
      simp [splitGo]
  | cons p rest ih =>
      intro fid prev group hchain hfid
      simp only [chainSmall, Bool.and_eq_true, Bool.not_eq_true'] at hchain
      obtain ⟨hgap, hchain'⟩ := hchain
      have hpfid : p.flight_id = fid := hfid p (List.mem_cons_self p rest)
      rw [splitGo, if_neg (by
        rintro (h | h)
        · rw [hgap] at h
          exact Bool.noConfusion h
        · exact h hpfid)]
      rw [ih fid p (p :: group) hchain'
        (fun q hq => hfid q (List.mem_cons_of_mem p hq))]
      simp

theorem splitGo_twoGroups (xs : List PositionDoc) :
    ∀ (fid : String) (prev : PositionDoc) (group : List PositionDoc)
      (y : PositionDoc) (ys : List PositionDoc),
    chainSmall prev xs = true → allFid fid xs →
    gapExceeded (lastPos prev xs) y = true → y.flight_id = fid →
    chainSmall y ys = true → allFid fid ys →
    splitGo fid prev group (xs ++ y :: ys) =
      [group.reverse ++ xs, y :: ys] := by
  induction xs with
  | nil =>
      intro fid prev group y ys _ _ hgap hyfid hys hfidys
      have hgap' : gapExceeded prev y = true := hgap
      rw [List.nil_append, splitGo, if_pos (Or.inl hgap')]
      rw [splitGo_small ys y.flight_id y [y] hys
        (fun q hq => by rw [hfidys q hq, ← hyfid])]
      simp
  | cons x xs ih =>
      intro fid prev group y ys hchain hfid hgap hyfid hys hfidys
      simp only [chainSmall, Bool.and_eq_true, Bool.not_eq_true'] at hchain
      obtain ⟨hgx, hchain'⟩ := hchain
      have hxfid : x.flight_id = fid := hfid x (List.mem_cons_self x xs)
      rw [List.cons_append, splitGo, if_neg (by
        rintro (h | h)
        · rw [hgx] at h
          exact Bool.noConfusion h
        · exact h hxfid)]
      rw [ih fid x (x :: group) y ys hchain'
        (fun q hq => hfid q (List.mem_cons_of_mem x hq)) hgap hyfid hys hfidys]
      simp

/-- C5 counterexample: two positions of the same aircraft sixty seconds
apart (no 15-minute gap) but belonging to different flight ids are
split into two groups, so `split_flights` does not place boundaries
exclusively at >15-minute time gaps. -/
theorem C5_counterexample_fid_change_boundary :
    split_flights
        [{ flight_id := "f1", timestmp := 0 },
         { flight_id := "f2", timestmp := 60 }] =
      [[{ flight_id := "f1", timestmp := 0 }],
       [{ flight_id := "f2", timestmp := 60 }]] ∧
    gapExceeded { flight_id := "f1", timestmp := 0 }
      { flight_id := "f2", timestmp := 60 } = false := by
  decide

/-- C5 amended: for positions of one aircraft address that all carry
the same flight id, ordered by timestamp, `split_flights` splits
exactly at the >15-minute gaps: when every consecutive gap is within 15
minutes the result is one group, and when there is exactly one
excessive gap (between position k and k+1, e.g. a 20-minute gap) the
result is exactly the two groups split there.  (On mixed flight ids the
code additionally starts a new group at each flight-id change.) -/
theorem C5_split_flights_gap_boundaries :
    (∀ (x : PositionDoc) (xs : List PositionDoc) (fid : String),
      x.flight_id = fid → allFid fid xs → chainSmall x xs = true →
      split_flights (x :: xs) = [x :: xs]) ∧
    (∀ (x : PositionDoc) (xs : List PositionDoc) (y : PositionDoc)
        (ys : List PositionDoc) (fid : String),
      x.flight_id = fid → allFid fid xs → y.flight_id = fid →
      allFid fid ys → chainSmall x xs = true → chainSmall y ys = true →
      gapExceeded (lastPos x xs) y = true →
      split_flights (x :: (xs ++ y :: ys)) = [x :: xs, y :: ys]) := by
  constructor
  · intro x xs fid hx hfid hchain
    rw [split_flights, splitGo_small xs x.flight_id x [x] hchain
      (fun q hq => by rw [hfid q hq, ← hx])]
    simp
  · intro x xs y ys fid hx hfid hyfid hfidys hchain hys hgap
    rw [split_flights, splitGo_twoGroups xs x.flight_id x [x] y ys hchain
      (fun q hq => by rw [hfid q hq, ← hx]) hgap (by rw [hyfid, ← hx]) hys
      (fun q hq => by rw [hfidys q hq, ← hx])]
    simp

/-- Closed instance of `C5_split_flights_gap_boundaries`: four
positions of flight "f1" one minute apart form one group; with a
20-minute gap inserted after the second position, the result is exactly
two groups split at that gap. -/
theorem C5_split_flights_gap_boundaries_witness :
    (({ flight_id := "f1", timestmp := 0 } : PositionDoc).flight_id = "f1" ∧
      allFid "f1"
        [{ flight_id := "f1", timestmp := 60 },
         { flight_id := "f1", timestmp := 120 },
         { flight_id := "f1", timestmp := 720 }] ∧
      chainSmall { flight_id := "f1", timestmp := 0 }
        [{ flight_id := "f1", timestmp := 60 },
         { flight_id := "f1", timestmp := 120 },
         { flight_id := "f1", timestmp := 720 }] = true ∧
      chainSmall { flight_id := "f1", timestmp := 1320 }
        [{ flight_id := "f1", timestmp := 1380 }] = true ∧
      gapExceeded
        (lastPos { flight_id := "f1", timestmp := 0 }
          [{ flight_id := "f1", timestmp := 60 }])
        { flight_id := "f1", timestmp := 1260 } = true) ∧
    split_flights
        [{ flight_id := "f1", timestmp := 0 },
         { flight_id := "f1", timestmp := 60 },
         { flight_id := "f1", timestmp := 120 },
         { flight_id := "f1", timestmp := 720 }] =
      [[{ flight_id := "f1", timestmp := 0 },
        { flight_id := "f1", timestmp := 60 },
        { flight_id := "f1", timestmp := 120 },
        { flight_id := "f1", timestmp := 720 }]] ∧
    split_flights
        ({ flight_id := "f1", timestmp := 0 } ::
          ([{ flight_id := "f1", timestmp := 60 }] ++
            { flight_id := "f1", timestmp := 1260 } ::
              [{ flight_id := "f1", timestmp := 1320 }])) =
      [[{ flight_id := "f1", timestmp := 0 },
        { flight_id := "f1", timestmp := 60 }],
       [{ flight_id := "f1", timestmp := 1260 },
        { flight_id := "f1", timestmp := 1320 }]] :=
  ⟨⟨rfl, by decide, by decide, by decide, by decide⟩,
    C5_split_flights_gap_boundaries.1
      { flight_id := "f1", timestmp := 0 }
      [{ flight_id := "f1", timestmp := 60 },
       { flight_id := "f1", timestmp := 120 },
       { flight_id := "f1", timestmp := 720 }] "f1" rfl (by decide) (by decide),
    C5_split_flights_gap_boundaries.2
      { flight_id := "f1", timestmp := 0 }
      [{ flight_id := "f1", timestmp := 60 }]
      { flight_id := "f1", timestmp := 1260 }
      [{ flight_id := "f1", timestmp := 1320 }] "f1" rfl (by decide) rfl
      (by decide) (by decide) (by decide) (by decide)⟩

end Flightradar

namespace Flightradar

theorem query_loop_some_isSome (ss : List SourceEntry) :
    ∀ (b : Aircraft) (used : List String) (hse anf asq : Bool)
      (logs : List SourceQueryLog),
    (query_loop ss (some b) used hse anf asq logs).aircraft.isSome = true := by
  induction ss with
  | nil =>
      intro b used hse anf asq logs
      unfold query_loop
      dsimp only
      split <;> rfl
  | cons e rest ih =>
      intro b used hse anf asq logs
      unfold query_loop
      dsimp only
      split
      · exact ih b used hse anf asq logs
      · split
        · exact ih b used hse anf asq logs
        · split
          · exact ih b used hse anf asq
              (logs ++ [{ source := e.name, status := "skipped_circuit_breaker" }])
          · split
            · exact ih b used true anf true _
            · exact ih b used true anf true _
            · exact ih b used hse true true _
            · next a _ =>
                split
                · rfl
                · split
                  · rfl
                  · exact ih _ _ hse anf true _
            · next a _ =>
                split
                · rfl
                · split
                  · rfl
                  · exact ih _ _ hse anf true _

theorem query_loop_error_message_none (ss : List SourceEntry) :
    ∀ (best : Option Aircraft) (used : List String) (hse anf asq : Bool)
      (logs : List SourceQueryLog),
    (query_loop ss best used hse anf asq logs).error_message = none := by
  induction ss with
  | nil =>
      intro best used hse anf asq logs
      rfl
  | cons e rest ih =>
      intro best used hse anf asq logs
      unfold query_loop
      dsimp only
      split
      · exact ih best used hse anf asq logs
      · split
        · exact ih best used hse anf asq logs
        · split
          · exact ih best used hse anf asq _
          · split
            · exact ih best used true anf true _
            · exact ih best used true anf true _
            · exact ih best used hse true true _
            · next a _ =>
                split
                · rfl
                · split
                  · rfl
                  · exact ih _ _ hse anf true _
            · next a _ =>
                split
                · rfl
                · split
                  · rfl
                  · exact ih _ _ hse anf true _

end Flightradar

namespace Flightradar

theorem query_loop_none_char (ss : List SourceEntry) :
    ∀ (used : List String) (hse anf asq : Bool) (logs : List SourceQueryLog),
    (query_loop ss none used hse anf asq logs).aircraft.isSome = true ∨
    ((query_loop ss none used hse anf asq logs).aircraft = none ∧
      (query_loop ss none used hse anf asq logs).all_not_found =
        (anf || anyNF ss) ∧
      (query_loop ss none used hse anf asq logs).had_service_error =
        (!(anf || anyNF ss) &&
          ((hse || anySvc ss) || !(asq || anyElig ss)))) := by
  induction ss with
  | nil =>
      intro used hse anf asq logs
      refine Or.inr ⟨rfl, ?_, ?_⟩ <;>
        (unfold query_loop
         cases anf <;> cases hse <;> cases asq <;> rfl)
  | cons e rest ih =>
      intro used hse anf asq logs
      unfold query_loop
      dsimp only
      split
      · next hna =>
          have hel : eligibleEntry e = false := by
            simp only [Bool.not_eq_true'] at hna
            simp [eligibleEntry, hna]
          rcases ih used hse anf asq logs with hs | ⟨hn, h1, h2⟩
          · exact Or.inl hs
          · refine Or.inr ⟨hn, ?_, ?_⟩
            · rw [h1]
              simp [anyNF, hel]
            · rw [h2]
              simp [anyNF, anySvc, anyElig, hel]
      · next hna =>
          split
          · next hne =>
              have hel : eligibleEntry e = false := by
                simp only [Bool.not_eq_true'] at hne
                simp [eligibleEntry, hne]
              rcases ih used hse anf asq logs with hs | ⟨hn, h1, h2⟩
              · exact Or.inl hs
              · refine Or.inr ⟨hn, ?_, ?_⟩
                · rw [h1]
                  simp [anyNF, hel]
                · rw [h2]
                  simp [anyNF, anySvc, anyElig, hel]
          · next hne =>
              split
              · next hnv =>
                  have hel : eligibleEntry e = false := by
                    simp only [Bool.not_eq_true'] at hnv
                    simp [eligibleEntry, hnv]
                  rcases ih used hse anf asq _ with hs | ⟨hn, h1, h2⟩
                  · exact Or.inl hs
                  · refine Or.inr ⟨hn, ?_, ?_⟩
                    · rw [h1]
                      simp [anyNF, hel]
                    · rw [h2]
                      simp [anyNF, anySvc, anyElig, hel]
              · next hnv =>
                  have hel : eligibleEntry e = true := by
                    simp only [Bool.not_eq_true', Bool.not_eq_false] at hna hne hnv
                    simp [eligibleEntry, hna, hne, hnv]
                  split
                  · next msg heq =>
                      rcases ih used true anf true _ with hs | ⟨hn, h1, h2⟩
                      · exact Or.inl hs
                      · refine Or.inr ⟨hn, ?_, ?_⟩
                        · rw [h1]
                          simp [anyNF, hel, heq, isNotFoundOutcome]
                        · rw [h2]
                          simp [anyNF, anySvc, anyElig, hel, heq,
                            isNotFoundOutcome, isServiceErrorOutcome]
                  · next msg heq =>
                      rcases ih used true anf true _ with hs | ⟨hn, h1, h2⟩
                      · exact Or.inl hs
                      · refine Or.inr ⟨hn, ?_, ?_⟩
                        · rw [h1]
                          simp [anyNF, hel, heq, isNotFoundOutcome]
                        · rw [h2]
                          simp [anyNF, anySvc, anyElig, hel, heq,
                            isNotFoundOutcome, isServiceErrorOutcome]
                  · next heq =>
                      rcases ih used hse true true _ with hs | ⟨hn, h1, h2⟩
                      · exact Or.inl hs
                      · refine Or.inr ⟨hn, ?_, ?_⟩
                        · rw [h1]
                          simp [anyNF, hel, heq, isNotFoundOutcome]
                        · rw [h2]
                          simp [anyNF, anySvc, anyElig, hel, heq,
                            isNotFoundOutcome, isServiceErrorOutcome]
                  · next a heq =>
                      split
                      · exact Or.inl rfl
                      · split
                        · exact Or.inl rfl
                        · exact Or.inl (query_loop_some_isSome rest _ _ hse anf true _)
                  · next a heq =>
                      split
                      · exact Or.inl rfl
                      · split
                        · exact Or.inl rfl
                        · exact Or.inl (query_loop_some_isSome rest _ _ hse anf true _)

end Flightradar

namespace Flightradar

theorem query_loop_eligible_data_isSome (ss : List SourceEntry) :
    ∀ (best : Option Aircraft) (used : List String) (hse anf asq : Bool)
      (logs : List SourceQueryLog) (w : SourceEntry),
    w ∈ ss → eligibleEntry w = true → isDataOutcome w.outcome = true →
    (query_loop ss best used hse anf asq logs).aircraft.isSome = true := by
  induction ss with
  | nil =>
      intro best used hse anf asq logs w hw _ _
      exact absurd hw (List.not_mem_nil w)
  | cons e rest ih =>
      intro best used hse anf asq logs w hw helig hdata
      unfold query_loop
      dsimp only
      split
      · next hna =>
          rcases List.mem_cons.mp hw with rfl | hwrest
          · exfalso
            simp only [Bool.not_eq_true'] at hna
            simp [eligibleEntry, hna] at helig
          · exact ih best used hse anf asq logs w hwrest helig hdata
      · split
        · next hne =>
            rcases List.mem_cons.mp hw with rfl | hwrest
            · exfalso
              simp only [Bool.not_eq_true'] at hne
              simp [eligibleEntry, hne] at helig
            · exact ih best used hse anf asq logs w hwrest helig hdata
        · split
          · next hnv =>
              rcases List.mem_cons.mp hw with rfl | hwrest
              · exfalso
                simp only [Bool.not_eq_true'] at hnv
                simp [eligibleEntry, hnv] at helig
              · exact ih best used hse anf asq _ w hwrest helig hdata
          · split
            · next msg heq =>
                rcases List.mem_cons.mp hw with rfl | hwrest
                · exfalso
                  rw [heq] at hdata
                  simp [isDataOutcome] at hdata
                · exact ih best used true anf true _ w hwrest helig hdata
            · next msg heq =>
                rcases List.mem_cons.mp hw with rfl | hwrest
                · exfalso
                  rw [heq] at hdata
                  simp [isDataOutcome] at hdata
                · exact ih best used true anf true _ w hwrest helig hdata
            · next heq =>
                rcases List.mem_cons.mp hw with rfl | hwrest
                · exfalso
                  rw [heq] at hdata
                  simp [isDataOutcome] at hdata
                · exact ih best used hse true true _ w hwrest helig hdata
            · next a heq =>
                split
                · rfl
                · split
                  · rfl
                  · exact query_loop_some_isSome rest _ _ hse anf true _
            · next a heq =>
                split
                · rfl
                · split
                  · rfl
                  · exact query_loop_some_isSome rest _ _ hse anf true _

end Flightradar

namespace Flightradar

/-- C1: for a crawl of one address that obtains no aircraft data, the
disposition in `crawl_sources` is the permanent not-found one (with its
attempt increment) exactly when some actually-queried source returned
NOT_FOUND — even if other sources had service errors or were skipped by
open circuit breakers — and the service-error disposition (cooldown
retry, no attempt increment) occurs exactly when no source confirmed
not-found and either a service error occurred or no source was queried
at all. -/
theorem C1_no_data_disposition (ss : List SourceEntry)
    (q : List QueueEntry) (icao24 : String) (now : ℤ) (insert_ok : Bool)
    (h : (_query_aircraft_metadata ss).aircraft = none) :
    ((process_one q icao24 now ss insert_ok).2 = "not_found" ↔
      anyNF ss = true) ∧
    ((process_one q icao24 now ss insert_ok).2 = "service_error" ↔
      (anyNF ss = false ∧ (anySvc ss = true ∨ anyElig ss = false))) ∧
    (anyNF ss = true →
      (process_one q icao24 now ss insert_ok).1 =
        AircraftProcessingRepository.record_not_found q icao24 now) ∧
    (anyNF ss = false →
      (process_one q icao24 now ss insert_ok).1 =
        AircraftProcessingRepository.record_service_error q icao24 now none) ∧
    (∀ ent : QueueEntry,
      (AircraftProcessingRepository.notFoundUpdate now ent).query_attempts =
        ent.query_attempts + 1) ∧
    (∀ (ent : QueueEntry) (msg : Option String),
      (AircraftProcessingRepository.serviceErrorUpdate now msg ent).query_attempts =
        ent.query_attempts) := by
  rcases query_loop_none_char ss [] false false false [] with hs | ⟨hn, h1, h2⟩
  · rw [show query_loop ss none [] false false false [] =
      _query_aircraft_metadata ss from rfl, h] at hs
    exact absurd hs (by simp)
  have h1' : (_query_aircraft_metadata ss).all_not_found = anyNF ss := by
    rw [show _query_aircraft_metadata ss =
      query_loop ss none [] false false false [] from rfl, h1]
    simp
  have h2' : (_query_aircraft_metadata ss).had_service_error =
      (!anyNF ss && (anySvc ss || !anyElig ss)) := by
    rw [show _query_aircraft_metadata ss =
      query_loop ss none [] false false false [] from rfl, h2]
    simp
  have hemsg : (_query_aircraft_metadata ss).error_message = none :=
    query_loop_error_message_none ss none [] false false false []
  rcases hnf : anyNF ss with _ | _
  · -- no source confirmed not-found
    have hanf : (_query_aircraft_metadata ss).all_not_found = false := by
      rw [h1', hnf]
    rcases hrem : (anySvc ss || !anyElig ss) with _ | _
    · -- no service error and some source queried: impossible with no data
      exfalso
      have hsvcf : anySvc ss = false := (Bool.or_eq_false_iff.mp hrem).1
      have heligt : anyElig ss = true := by
        have := (Bool.or_eq_false_iff.mp hrem).2
        simpa using this
      obtain ⟨e0, he0, helig⟩ := List.any_eq_true.mp heligt
      have hnf0 :
          ¬(eligibleEntry e0 && isNotFoundOutcome e0.outcome) = true := by
        intro hc
        have hx : anyNF ss = true := List.any_eq_true.mpr ⟨e0, he0, hc⟩
        rw [hnf] at hx
        exact Bool.noConfusion hx
      have hsvc0 :
          ¬(eligibleEntry e0 && isServiceErrorOutcome e0.outcome) = true := by
        intro hc
        have hx : anySvc ss = true := List.any_eq_true.mpr ⟨e0, he0, hc⟩
        rw [hsvcf] at hx
        exact Bool.noConfusion hx
      have hdata : isDataOutcome e0.outcome = true := by
        rcases houtc : e0.outcome with msg | _ | a | a | msg
        · exfalso
          apply hsvc0
          rw [houtc]
          simp [helig, isServiceErrorOutcome]
        · exfalso
          apply hnf0
          rw [houtc]
          simp [helig, isNotFoundOutcome]
        · rfl
        · rfl
        · exfalso
          apply hsvc0
          rw [houtc]
          simp [helig, isServiceErrorOutcome]
      have hsome := query_loop_eligible_data_isSome ss none [] false false false []
        e0 he0 helig hdata
      rw [show query_loop ss none [] false false false [] =
        _query_aircraft_metadata ss from rfl, h] at hsome
      exact absurd hsome (by simp)
    · -- service error or nothing queried: service-error disposition
      have hhse : (_query_aircraft_metadata ss).had_service_error = true := by
        rw [h2', hnf, hrem]
        rfl
      have hproc : process_one q icao24 now ss insert_ok =
          (AircraftProcessingRepository.record_service_error q icao24 now none,
            "service_error") := by
        unfold process_one
        dsimp only
        rw [h]
        dsimp only
        rw [hhse, if_pos rfl, hemsg]
      refine ⟨?_, ?_, ?_, ?_, fun ent => rfl, fun ent msg => rfl⟩
      · rw [hproc]
        simp
      · rw [hproc]
        constructor
        · intro _
          refine ⟨rfl, ?_⟩
          rcases Bool.or_eq_true_iff.mp hrem with hx | hx
          · exact Or.inl hx
          · exact Or.inr (by simpa using hx)
        · intro _
          rfl
      · intro hc
        exact absurd hc (by decide)
      · intro _
        rw [hproc]
  · -- some source confirmed not-found: permanent not-found disposition
    have hanf : (_query_aircraft_metadata ss).all_not_found = true := by
      rw [h1', hnf]
    have hhse : (_query_aircraft_metadata ss).had_service_error = false := by
      rw [h2', hnf]
      rfl
    have hproc : process_one q icao24 now ss insert_ok =
        (AircraftProcessingRepository.record_not_found q icao24 now,
          "not_found") := by
      unfold process_one
      dsimp only
      rw [h]
      dsimp only
      rw [hhse, if_neg (by decide), hanf, if_pos rfl]
    refine ⟨?_, ?_, ?_, ?_, fun ent => rfl, fun ent msg => rfl⟩
    · rw [hproc]
      simp
    · rw [hproc]
      constructor
      · intro hc
        exact absurd hc (by simp)
      · intro hc
        exact absurd hc.1 (by decide)
    · intro _
      rw [hproc]
    · intro hc
      exact absurd hc (by decide)

end Flightradar

namespace Flightradar

/-- Closed instance of `C1_no_data_disposition`: one source returns a
service error and another returns NOT_FOUND; the crawl yields no data
and the disposition is the permanent not-found one (attempt
increment via `record_not_found`). -/
theorem C1_no_data_disposition_witness :
    (_query_aircraft_metadata
        [{ name := "A", outcome := .service_error (some "boom") },
         { name := "B", outcome := .not_found }]).aircraft = none ∧
    ((process_one [{ modeS := "AB12CD" }] "AB12CD" 5
        [{ name := "A", outcome := .service_error (some "boom") },
         { name := "B", outcome := .not_found }] true).2 = "not_found" ↔
      anyNF [{ name := "A", outcome := .service_error (some "boom") },
             { name := "B", outcome := .not_found }] = true) ∧
    (process_one [{ modeS := "AB12CD" }] "AB12CD" 5
        [{ name := "A", outcome := .service_error (some "boom") },
         { name := "B", outcome := .not_found }] true).1 =
      AircraftProcessingRepository.record_not_found
        [{ modeS := "AB12CD" }] "AB12CD" 5 :=
  ⟨by decide,
    (C1_no_data_disposition
      [{ name := "A", outcome := .service_error (some "boom") },
       { name := "B", outcome := .not_found }]
      [{ modeS := "AB12CD" }] "AB12CD" 5 true (by decide)).1,
    (C1_no_data_disposition
      [{ name := "A", outcome := .service_error (some "boom") },
       { name := "B", outcome := .not_found }]
      [{ modeS := "AB12CD" }] "AB12CD" 5 true (by decide)).2.2.1 (by decide)⟩

/-- C4: with source A returning SERVICE_ERROR, source B PARTIAL
(registration and type code only) and source C PARTIAL (operator only),
the crawl produces the merged record attributed to "B+C", which is
complete in the spec's sense (registration + type code + operator);
`crawl_sources` persists it, removes the queue entry for the address,
and records the activity status "merged". -/
theorem C4_three_source_merge_scenario :
    (_query_aircraft_metadata
        [{ name := "A", outcome := .service_error (some "http 500") },
         { name := "B", outcome := .partial_data
            { mode_s := "AB12CD", reg := some "N123",
              icao_type_code := some "B738", source := some "B" } },
         { name := "C", outcome := .partial_data
            { mode_s := "AB12CD", operator := some "Acme Air",
              source := some "C" } }]).aircraft =
      some { mode_s := "AB12CD", reg := some "N123",
             icao_type_code := some "B738", operator := some "Acme Air",
             source := some "B+C" } ∧
    _is_sufficient
      { mode_s := "AB12CD", reg := some "N123",
        icao_type_code := some "B738", operator := some "Acme Air",
        source := some "B+C" } = true ∧
    process_one [{ modeS := "AB12CD" }] "AB12CD" 5
        [{ name := "A", outcome := .service_error (some "http 500") },
         { name := "B", outcome := .partial_data
            { mode_s := "AB12CD", reg := some "N123",
              icao_type_code := some "B738", source := some "B" } },
         { name := "C", outcome := .partial_data
            { mode_s := "AB12CD", operator := some "Acme Air",
              source := some "C" } }] true =
      ([], "merged") := by
  decide

end Flightradar

namespace Flightradar

/-- C6: the crawler's early-stop predicate `_is_sufficient` holds
exactly when registration and ICAO type code are present and at least
one of type description or operator is present; and once a queried
source's data makes the accumulated merged record sufficient (or fully
complete), the crawl returns immediately — the remaining sources are
never examined. -/
theorem C6_sufficient_predicate_early_stop :
    (∀ a : Aircraft, _is_sufficient a =
      (a.reg.isSome && a.icao_type_code.isSome &&
        (a.aircraft_type_description.isSome || a.operator.isSome))) ∧
    (∀ (e : SourceEntry) (a : Aircraft) (rest₁ rest₂ : List SourceEntry)
        (best : Option Aircraft) (used : List String) (hse anf asq : Bool)
        (logs : List SourceQueryLog),
      eligibleEntry e = true →
      (e.outcome = .success a ∨ e.outcome = .partial_data a) →
      ((accumulate best a).is_complete_with_operator = true ∨
        _is_sufficient (accumulate best a) = true) →
      query_loop (e :: rest₁) best used hse anf asq logs =
        query_loop (e :: rest₂) best used hse anf asq logs) := by
  constructor
  · intro a
    unfold _is_sufficient
    dsimp only
    cases hr : a.reg.isSome <;> cases ht : a.icao_type_code.isSome <;> simp
  · intro e a rest₁ rest₂ best used hse anf asq logs helig hout hsuff
    have hacc : e.accepts = true := by
      simp only [eligibleEntry, Bool.and_eq_true] at helig
      exact helig.1.1
    have hen : e.enabled = true := by
      simp only [eligibleEntry, Bool.and_eq_true] at helig
      exact helig.1.2
    have hav : e.available = true := by
      simp only [eligibleEntry, Bool.and_eq_true] at helig
      exact helig.2
    have hor : ((accumulate best a).is_complete_with_operator ||
        _is_sufficient (accumulate best a)) = true :=
      Bool.or_eq_true_iff.mpr hsuff
    rcases hout with houtc | houtc <;>
      (rcases hca : a.is_complete_with_operator with _ | _
       · simp only [query_loop, houtc, hacc, hen, hav]
         simp [hca, hor]
       · simp only [query_loop, houtc, hacc, hen, hav]
         simp [hca])

/-- Closed instance of `C6_sufficient_predicate_early_stop`: a partial
record carrying registration, type code and type description is
sufficient, so after source "B" delivers it the loop's result is the
same whether or not a further source "C" is configured. -/
theorem C6_sufficient_predicate_early_stop_witness :
    (eligibleEntry
        { name := "B"
          outcome := .partial_data
            { mode_s := "AB12CD", reg := some "N123"
              icao_type_code := some "B738"
              aircraft_type_description := some "Boeing 737-800"
              source := some "B" } } = true ∧
      ({ name := "B"
         outcome := .partial_data
           { mode_s := "AB12CD", reg := some "N123"
             icao_type_code := some "B738"
             aircraft_type_description := some "Boeing 737-800"
             source := some "B" } } : SourceEntry).outcome =
          .partial_data
            { mode_s := "AB12CD", reg := some "N123"
              icao_type_code := some "B738"
              aircraft_type_description := some "Boeing 737-800"
              source := some "B" } ∧
      _is_sufficient (accumulate none
        { mode_s := "AB12CD", reg := some "N123"
          icao_type_code := some "B738"
          aircraft_type_description := some "Boeing 737-800"
          source := some "B" }) = true) ∧
    query_loop
        [{ name := "B"
           outcome := .partial_data
             { mode_s := "AB12CD", reg := some "N123"
               icao_type_code := some "B738"
               aircraft_type_description := some "Boeing 737-800"
               source := some "B" } },
         { name := "C", outcome := .not_found }] none [] false false false [] =
      query_loop
        [{ name := "B"
           outcome := .partial_data
             { mode_s := "AB12CD", reg := some "N123"
               icao_type_code := some "B738"
               aircraft_type_description := some "Boeing 737-800"
               source := some "B" } }] none [] false false false [] :=
  ⟨⟨by decide, rfl, by decide⟩,
    C6_sufficient_predicate_early_stop.2
      { name := "B"
        outcome := .partial_data
          { mode_s := "AB12CD", reg := some "N123"
            icao_type_code := some "B738"
            aircraft_type_description := some "Boeing 737-800"
            source := some "B" } }
      { mode_s := "AB12CD", reg := some "N123"
        icao_type_code := some "B738"
        aircraft_type_description := some "Boeing 737-800"
        source := some "B" }
      [{ name := "C", outcome := .not_found }] [] none [] false false false []
      (by decide) (Or.inr rfl) (Or.inr (by decide))⟩

end Flightradar
